import Mathlib

/-!
Shallow embedding of the payment transaction / order state reconciliation
subsystem of the mercado-copado backend (NestJS + Prisma source).

The relational store (Prisma) is modelled as an explicit `Store` record of
lists of rows; each service method becomes a Lean function from a store to a
store paired with an `Except` result, so that writes performed before an
exception are kept (Prisma performs no implicit transaction rollback across
separate `await` calls, which is exactly what the source relies on).
External gateway calls (Mercado Pago, Payphone, dolarapi) are modelled as
explicit input parameters carrying the response or the thrown error.
-/

/-- `PaymentStatus` enum from prisma/generated enums. -/
inductive PaymentStatus
  | pending
  | completed
  | failed
deriving DecidableEq, Repr

/-- `PaymentProvider` enum from prisma/generated enums. -/
inductive PaymentProvider
  | PAYPHONE
  | MERCADOPAGO
  | CASH_DEPOSIT
  | CRYPTO_DEPOSIT
deriving DecidableEq, Repr

/-- `OrderStatus` enum from prisma/generated enums. -/
inductive OrderStatus
  | created
  | pending
  | processing
  | paid_pending_review
  | shipping
  | delivered
  | cancelled
deriving DecidableEq, Repr

/-- A `PaymentTransaction` row. JSON blobs (`payphoneData`) are opaque strings. -/
structure Txn where
  id : String
  clientTransactionId : String
  userId : String
  orderId : Option String
  amount : Rat
  status : PaymentStatus
  paymentProvider : PaymentProvider
  addressId : Option String
  paymentMethodId : Option String
  payphoneData : Option String
deriving DecidableEq, Repr

/-- An `OrderItem` row (price snapshotted at order creation). -/
structure OrderItem where
  productId : String
  quantity : Nat
  price : Rat
deriving DecidableEq, Repr

/-- An `Order` row. -/
structure Order where
  id : String
  userId : String
  addressId : String
  total : Rat
  status : OrderStatus
  items : List OrderItem
  depositImageUrl : Option String
deriving DecidableEq, Repr

/-- The product fields the payment core reads (price, discount). -/
structure Product where
  id : String
  price : Rat
  discount : Option Rat
deriving DecidableEq, Repr

/-- A `CartItem` row joined with its product. -/
structure CartItem where
  userId : String
  productId : String
  quantity : Nat
  product : Product
deriving DecidableEq, Repr

/-- An `Address` row (only the fields the core checks). -/
structure Address where
  id : String
  userId : String
deriving DecidableEq, Repr

/-- Observable e-mail side effects fired by the core: the order status-change
e-mail sent by `OrdersService.updateStatus` and the order-confirmation e-mail
sent by `handlePaymentCompleted`. -/
inductive Notification
  | statusEmail (orderId : String) (newStatus : OrderStatus) (previousStatus : OrderStatus)
  | confirmationEmail (orderId : String) (total : Rat)
deriving DecidableEq, Repr

/-- Typed errors thrown by the services (NestJS exceptions / plain Error). -/
inductive Err
  | notFound (msg : String)
  | badRequest (msg : String)
  | gatewayError (msg : String)
deriving DecidableEq, Repr

/-- The relational store plus the log of notification side effects. -/
structure Store where
  transactions : List Txn
  orders : List Order
  cartItems : List CartItem
  addresses : List Address
  notifications : List Notification
deriving DecidableEq, Repr

/-- JS truthiness for an optional string: `undefined` and the empty string are
falsy. -/
def optTruthy (o : Option String) : Option String :=
  match o with
  | some "" => none
  | some v => some v
  | none => none

/-- JS `a || b` for optional strings. -/
def orElseStr (o : Option String) (d : String) : String :=
  match optTruthy o with
  | some v => v
  | none => d

/-- JS `a || b` when both sides are optional strings. -/
def jsStrOr (a : Option String) (b : Option String) : Option String :=
  match optTruthy a with
  | some v => some v
  | none => b

/-- Predicate used by every `findUnique` on `clientTransactionId`. -/
def txnMatches (ctid : String) (t : Txn) : Bool :=
  t.clientTransactionId == ctid

/-- `prisma.paymentTransaction.findUnique(\x7bwhere: \x7bclientTransactionId\x7d\x7d)`. -/
def findTxn (s : Store) (ctid : String) : Option Txn :=
  s.transactions.find? (txnMatches ctid)

/-- Predicate used by `findUnique` on an order id. -/
def orderMatches (oid : String) (o : Order) : Bool :=
  o.id == oid

/-- `prisma.order.findUnique(\x7bwhere: \x7bid\x7d\x7d)`. -/
def findOrder (s : Store) (oid : String) : Option Order :=
  s.orders.find? (orderMatches oid)

/-- A prisma `update` on a unique key: replace every row matching `p` by `y`
(at most one matches when keys are unique). -/
def replaceBy (p : α → Bool) (y : α) (l : List α) : List α :=
  l.map (fun x => if p x then y else x)

/-- Update the transaction with the given `clientTransactionId`. -/
def storeSetTxn (s : Store) (ctid : String) (y : Txn) : Store :=
  { s with transactions := replaceBy (txnMatches ctid) y s.transactions }

/-- Update the order with the given id. -/
def storeSetOrder (s : Store) (oid : String) (y : Order) : Store :=
  { s with orders := replaceBy (orderMatches oid) y s.orders }

/-- `calculateFinalPrice` from payments/helpers/cart.helper.ts:
`price * (1 - discount / 100)` with a null discount read as 0. -/
def calculateFinalPrice (price : Rat) (discount : Option Rat) : Rat :=
  price * (1 - discount.getD 0 / 100)

/-- Order items snapshotted from cart items (`cartItems.map` in the source). -/
def cartOrderItems (cartItems : List CartItem) : List OrderItem :=
  cartItems.map (fun item =>
    { productId := item.productId
      quantity := item.quantity
      price := calculateFinalPrice item.product.price item.product.discount })

/-- The accumulated `total += finalPrice * item.quantity`. -/
def orderItemsTotal (items : List OrderItem) : Rat :=
  (items.map (fun it => it.price * (it.quantity : Rat))).sum

namespace OrdersService

/-- `OrdersService.updateStatus` (orders.service.ts): find the order (optionally
scoped to a user), write the new status, and send the status-change e-mail
when the status actually changed. -/
def updateStatus (s : Store) (id : String) (status : OrderStatus)
    (userId : Option String) : Store × Except Err Order :=
  match s.orders.find? (fun o =>
      o.id == id && (match userId with | some u => o.userId == u | none => true)) with
  | none => (s, .error (.notFound "Orden no encontrada"))
  | some order =>
    let previousStatus := order.status
    let updatedOrder := { order with status := status }
    let s1 := storeSetOrder s id updatedOrder
    let s2 := if previousStatus != status then
        { s1 with notifications := s1.notifications ++ [.statusEmail id status previousStatus] }
      else s1
    (s2, .ok updatedOrder)

/-- `OrdersService.createFromPaymentTransaction`: validate the address, read the
cart (BadRequest when empty), snapshot item prices, create the order at the
given initial status and clear the cart. The generated row id is passed in. -/
def createFromPaymentTransaction (s : Store) (userId : String) (addressId : String)
    (initialStatus : OrderStatus) (newOrderId : String) : Store × Except Err Order :=
  match s.addresses.find? (fun a => a.id == addressId && a.userId == userId) with
  | none => (s, .error (.notFound "Dirección no encontrada"))
  | some _ =>
    let cartItems := s.cartItems.filter (fun c => c.userId == userId)
    if cartItems.isEmpty then
      (s, .error (.badRequest "El carrito está vacío"))
    else
      let orderItems := cartOrderItems cartItems
      let total := orderItemsTotal orderItems
      let order : Order :=
        { id := newOrderId, userId := userId, addressId := addressId, total := total
          status := initialStatus, items := orderItems, depositImageUrl := none }
      let s1 := { s with orders := s.orders ++ [order] }
      let s2 := { s1 with cartItems := s1.cartItems.filter (fun c => !(c.userId == userId)) }
      (s2, .ok order)

end OrdersService

namespace PaymentOrderService

/-- `determineOrderStatus` (payment-order.service.ts): PAYPHONE and MERCADOPAGO
drive the order to processing, CASH_DEPOSIT and the default branch to
paid_pending_review. -/
def determineOrderStatus (paymentProvider : PaymentProvider) : OrderStatus :=
  match paymentProvider with
  | .PAYPHONE => .processing
  | .MERCADOPAGO => .processing
  | .CASH_DEPOSIT => .paid_pending_review
  | .CRYPTO_DEPOSIT => .paid_pending_review

/-- `handlePaymentCompleted` (payment-order.service.ts): requires a linked order
(BadRequest otherwise), loads it (NotFound otherwise), advances it to the
provider-determined status via `OrdersService.updateStatus` (which fires the
status e-mail) and then sends the order-confirmation e-mail. -/
def handlePaymentCompleted (s : Store) (transaction : Txn) : Store × Except Err Unit :=
  match transaction.orderId with
  | none =>
    (s, .error (.badRequest
      "La transacción no tiene una orden asociada. Por favor, contacta al soporte."))
  | some oid =>
    match findOrder s oid with
    | none => (s, .error (.notFound "La orden asociada a esta transacción no fue encontrada"))
    | some order =>
      let newOrderStatus := determineOrderStatus transaction.paymentProvider
      let (s1, r) := OrdersService.updateStatus s order.id newOrderStatus none
      match r with
      | .error e => (s1, .error e)
      | .ok _ =>
        ({ s1 with notifications :=
            s1.notifications ++ [.confirmationEmail order.id transaction.amount] },
         .ok ())

/-- `updatePaymentStatus` (payment-order.service.ts): load by
clientTransactionId (NotFound otherwise); same-status calls return the row
unchanged; otherwise the status (and the gateway blob, new value or retained
old one) is written first, and only then, for completed, the order side
effects run — an exception there does not undo the write. -/
def updatePaymentStatus (s : Store) (clientTransactionId : String)
    (status : PaymentStatus) (payphoneData : Option String) : Store × Except Err Txn :=
  match findTxn s clientTransactionId with
  | none =>
    (s, .error (.notFound
      "Transacción con clientTransactionId no encontrada"))
  | some transaction =>
    if transaction.status == status then
      (s, .ok transaction)
    else
      let newPayphoneData : Option String :=
        match payphoneData with
        | some d => some d
        | none => transaction.payphoneData
      let updatedTransaction : Txn :=
        { transaction with status := status, payphoneData := newPayphoneData }
      let s1 := storeSetTxn s clientTransactionId updatedTransaction
      if status == PaymentStatus.completed then
        let (s2, r) := handlePaymentCompleted s1 transaction
        match r with
        | .error e => (s2, .error e)
        | .ok _ => (s2, .ok updatedTransaction)
      else
        (s1, .ok updatedTransaction)

/-- `createOrderFromTransaction` (payment-order.service.ts): NotFound without a
transaction, BadRequest without an addressId, idempotent short-circuit when an
order is already linked; otherwise build the order from the cart and persist
the new orderId onto the transaction. -/
def createOrderFromTransaction (s : Store) (clientTransactionId : String)
    (initialStatus : OrderStatus) (newOrderId : String) :
    Store × Except Err (Option Order) :=
  match findTxn s clientTransactionId with
  | none => (s, .error (.notFound "Transacción no encontrada"))
  | some transaction =>
    match optTruthy transaction.addressId with
    | none => (s, .error (.badRequest "La transacción no tiene addressId"))
    | some addressId =>
      match transaction.orderId with
      | some oid => (s, .ok (findOrder s oid))
      | none =>
        let (s1, r) := OrdersService.createFromPaymentTransaction s transaction.userId
          addressId initialStatus newOrderId
        match r with
        | .error e => (s1, .error e)
        | .ok order =>
          let s2 := storeSetTxn s1 clientTransactionId
            { transaction with orderId := some order.id }
          (s2, .ok (some order))

end PaymentOrderService

/-- The `\x7bstatus, external_reference\x7d` pair returned by
`MercadoPagoProvider.getPayment`; either field may be absent. -/
structure MPPayment where
  status : Option String
  external_reference : Option String
deriving DecidableEq, Repr

/-- Result shape of the verify-pull path (`MercadoPagoVerificationResult`). -/
structure VerificationResult where
  status : String
  updated : Bool
  message : Option String
deriving DecidableEq, Repr

/-- Error message extraction (`error instanceof Error ? error.message : ...`). -/
def errMessage (e : Err) : String :=
  match e with
  | .notFound m => m
  | .badRequest m => m
  | .gatewayError m => m

namespace PaymentWebhookService

/-- `handleMercadoPagoWebhook` (payment-webhook.service.ts): query the gateway
(the response or thrown error is the `gw` argument), abort silently without an
`external_reference` or a matching local transaction, and call
`updatePaymentStatus(..., completed)` exactly when the gateway status is
approved; every other gateway status is ignored. -/
def handleMercadoPagoWebhook (s : Store) (gw : Except Err MPPayment) :
    Store × Except Err Unit :=
  match gw with
  | .error e => (s, .error e)
  | .ok payment =>
    match optTruthy payment.external_reference with
    | none => (s, .ok ())
    | some external_reference =>
      match findTxn s external_reference with
      | none => (s, .ok ())
      | some _ =>
        if payment.status == some "approved" then
          let (s1, r) := PaymentOrderService.updatePaymentStatus s external_reference
            PaymentStatus.completed none
          (s1, r.map (fun _ => ()))
        else
          (s, .ok ())

/-- `verifyAndUpdateMercadoPagoPayment` (payment-webhook.service.ts): the pull
path. The whole body sits in a try/catch, so a thrown error (from the gateway
or from `updatePaymentStatus`) becomes an error result while keeping any
writes already performed. -/
def verifyAndUpdateMercadoPagoPayment (s : Store) (gw : Except Err MPPayment)
    (externalReference : String) : Store × VerificationResult :=
  match gw with
  | .error e => (s, ⟨"error", false, some (errMessage e)⟩)
  | .ok payment =>
    match findTxn s externalReference with
    | none => (s, ⟨"not_found", false, some "Transacción no encontrada"⟩)
    | some transaction =>
      if transaction.status == PaymentStatus.completed then
        (s, ⟨"already_completed", false, some "El pago ya fue procesado anteriormente"⟩)
      else if payment.status == some "approved" then
        let (s1, r) := PaymentOrderService.updatePaymentStatus s externalReference
          PaymentStatus.completed none
        match r with
        | .error e => (s1, ⟨"error", false, some (errMessage e)⟩)
        | .ok _ => (s1, ⟨"approved", true, some "Pago confirmado exitosamente"⟩)
      else if payment.status == some "pending" || payment.status == some "in_process" then
        (s, ⟨"pending", false, some "El pago está pendiente de confirmación"⟩)
      else if payment.status == some "rejected" || payment.status == some "cancelled"
          || payment.status == some "refunded" then
        let (s1, r) := PaymentOrderService.updatePaymentStatus s externalReference
          PaymentStatus.failed none
        match r with
        | .error e => (s1, ⟨"error", false, some (errMessage e)⟩)
        | .ok _ => (s1, ⟨orElseStr payment.status "rejected", true,
            some "El pago fue rechazado o cancelado"⟩)
      else
        (s, ⟨orElseStr payment.status "unknown", false, some "Estado de pago desconocido"⟩)

end PaymentWebhookService

/-- The create-transaction request body (`CreatePaymentTransactionDto`). -/
structure CreatePaymentTransactionDto where
  orderId : Option String
  clientTransactionId : String
  addressId : Option String
  paymentMethodId : Option String
  paymentProvider : Option PaymentProvider
  payphoneData : Option String
deriving DecidableEq, Repr

/-- Result of a gateway initiate-payment call
(`\x7bpaymentId?, redirectUrl?, paymentData?\x7d`, with `paymentData.initPoint`
modelled as its own field). -/
structure GatewayInitResult where
  paymentId : Option String
  redirectUrl : Option String
  initPoint : Option String
deriving DecidableEq, Repr

/-- Result of `createWithOrder`
(`\x7btransaction, order, preferenceId?, initPoint?\x7d`). -/
structure CreateWithOrderResult where
  transaction : Txn
  order : Order
  preferenceId : Option String
  initPoint : Option String
deriving DecidableEq, Repr

/-- Result of `regenerateForOrder` (for MERCADOPAGO it also carries the new
preference id and init point). -/
structure RegenResult where
  transaction : Txn
  preferenceId : Option String
  initPoint : Option String
deriving DecidableEq, Repr

/-- The `Order` row created by `createWithOrder`. -/
def createWithOrderOrder (userId : String) (addressId : String) (items : List OrderItem)
    (newOrderId : String) : Order :=
  { id := newOrderId, userId := userId, addressId := addressId
    total := orderItemsTotal items
    status := OrderStatus.pending, items := items, depositImageUrl := none }

/-- The `PaymentTransaction` row created by `createWithOrder`. -/
def createWithOrderTxn (userId : String) (dto : CreatePaymentTransactionDto)
    (total : Rat) (newOrderId : String) (newTxnRowId : String) : Txn :=
  { id := newTxnRowId
    clientTransactionId := dto.clientTransactionId
    userId := userId
    orderId := some newOrderId
    amount := total
    status := PaymentStatus.pending
    paymentProvider := dto.paymentProvider.getD PaymentProvider.PAYPHONE
    addressId := optTruthy dto.addressId
    paymentMethodId := optTruthy dto.paymentMethodId
    payphoneData := optTruthy dto.payphoneData }

/-- The fresh `PaymentTransaction` row created by `regenerateForOrder` (with
the sentinel exclusion on `paymentMethodId`). -/
def regeneratedTxn (order : Order) (orderId : String) (userId : String)
    (paymentProvider : PaymentProvider) (paymentMethodId : Option String)
    (payphoneData : Option String) (newClientTransactionId : String)
    (newTxnRowId : String) : Txn :=
  { id := newTxnRowId
    clientTransactionId := newClientTransactionId
    userId := userId
    orderId := some orderId
    amount := order.total
    status := PaymentStatus.pending
    paymentProvider := paymentProvider
    addressId := some order.addressId
    paymentMethodId :=
      match paymentMethodId with
      | some m => if m != "" && m != "payphone-default" then some m else none
      | none => none
    payphoneData := payphoneData }

namespace PaymentTransactionService

/-- `createWithOrder` (payment-transaction.service.ts): validate addressId and
address ownership, read the cart (BadRequest when empty), snapshot prices,
create the order (status pending) and the linked transaction (status pending),
then for MERCADOPAGO call the gateway (`gwResult` carries its outcome; a
thrown error propagates after both rows were created) and finally clear the
cart unless this is an existing-order retry. Generated row ids are passed in. -/
def createWithOrder (s : Store) (userId : String) (dto : CreatePaymentTransactionDto)
    (newOrderId : String) (newTxnRowId : String) (gwResult : Except Err GatewayInitResult) :
    Store × Except Err CreateWithOrderResult :=
  match optTruthy dto.addressId with
  | none => (s, .error (.badRequest "addressId es requerido"))
  | some addressId =>
    match s.addresses.find? (fun a => a.id == addressId && a.userId == userId) with
    | none => (s, .error (.notFound "Dirección no encontrada"))
    | some _ =>
      let cartItems := s.cartItems.filter (fun c => c.userId == userId)
      if cartItems.isEmpty then
        (s, .error (.badRequest "El carrito está vacío"))
      else
        let orderItems := cartOrderItems cartItems
        let total := orderItemsTotal orderItems
        let order := createWithOrderOrder userId addressId orderItems newOrderId
        let s1 := { s with orders := s.orders ++ [order] }
        let transaction := createWithOrderTxn userId dto total order.id newTxnRowId
        let s2 := { s1 with transactions := s1.transactions ++ [transaction] }
        let provider := dto.paymentProvider.getD PaymentProvider.PAYPHONE
        if provider == PaymentProvider.MERCADOPAGO then
          match gwResult with
          | .error e => (s2, .error e)
          | .ok result =>
            let s3 := if (optTruthy dto.orderId).isNone then
                { s2 with cartItems := s2.cartItems.filter (fun c => !(c.userId == userId)) }
              else s2
            (s3, .ok { transaction := transaction, order := order
                       preferenceId := result.paymentId
                       initPoint := jsStrOr result.initPoint result.redirectUrl })
        else
          let s3 := if (optTruthy dto.orderId).isNone then
              { s2 with cartItems := s2.cartItems.filter (fun c => !(c.userId == userId)) }
            else s2
          (s3, .ok { transaction := transaction, order := order
                     preferenceId := none, initPoint := none })

/-- `deleteUserPendingPayment` (payment-transaction.service.ts): only a
pending transaction owned by the caller can be deleted; NotFound otherwise. -/
def deleteUserPendingPayment (s : Store) (userId : String) (transactionId : String) :
    Store × Except Err String :=
  match s.transactions.find? (fun t =>
      t.id == transactionId && t.userId == userId && t.status == PaymentStatus.pending) with
  | none =>
    (s, .error (.notFound
      "Transacción pendiente no encontrada o no pertenece al usuario"))
  | some _ =>
    ({ s with transactions := s.transactions.filter (fun t => !(t.id == transactionId)) },
     .ok "Transacción pendiente eliminada exitosamente")

/-- `regenerateForOrder` (payment-transaction.service.ts): the order must
exist, belong to the user and be pending (NotFound otherwise); every pending
transaction of that order and user is deleted; a fresh pending transaction for
`order.total` is created with a newly generated clientTransactionId (passed in
as `newClientTransactionId`); for MERCADOPAGO the gateway is then asked for a
new preference (`gwResult`). -/
def regenerateForOrder (s : Store) (orderId : String) (userId : String)
    (paymentProvider : PaymentProvider) (paymentMethodId : Option String)
    (payphoneData : Option String) (newClientTransactionId : String)
    (newTxnRowId : String) (gwResult : Except Err GatewayInitResult) :
    Store × Except Err RegenResult :=
  match s.orders.find? (fun o =>
      o.id == orderId && o.userId == userId && o.status == OrderStatus.pending) with
  | none => (s, .error (.notFound "Orden no encontrada o no está en estado pendiente"))
  | some order =>
    let s1 := { s with transactions := s.transactions.filter (fun t =>
        !(t.orderId == some orderId && t.userId == userId
          && t.status == PaymentStatus.pending)) }
    let transaction := regeneratedTxn order orderId userId paymentProvider
      paymentMethodId payphoneData newClientTransactionId newTxnRowId
    let s2 := { s1 with transactions := s1.transactions ++ [transaction] }
    if paymentProvider == PaymentProvider.MERCADOPAGO then
      match gwResult with
      | .error e => (s2, .error e)
      | .ok result =>
        (s2, .ok { transaction := transaction
                   preferenceId := result.paymentId
                   initPoint := jsStrOr result.initPoint result.redirectUrl })
    else
      (s2, .ok { transaction := transaction, preferenceId := none, initPoint := none })

end PaymentTransactionService

/-- Result of the facade `processPhonePayment`. -/
structure PhonePaymentResult where
  transaction : Txn
  payphoneResponse : String
deriving DecidableEq, Repr

namespace PaymentsService

/-- `processPhonePayment` (payments.service.ts facade): find the caller-owned
transaction (NotFound otherwise). With a client-supplied Payphone response the
blob is stored and a missing order is created best-effort (errors swallowed).
Otherwise the Payphone Sale call is made (`gwResult`); on success the blob is
stored and the order created best-effort; on failure the transaction status is
set to failed and the error is rethrown. -/
def processPhonePayment (s : Store) (userId : String) (clientTransactionId : String)
    (payphoneResponse : Option String) (gwResult : Except Err String)
    (newOrderId : String) : Store × Except Err PhonePaymentResult :=
  match s.transactions.find? (fun t =>
      t.clientTransactionId == clientTransactionId && t.userId == userId) with
  | none => (s, .error (.notFound "Transacción no encontrada"))
  | some transaction =>
    match payphoneResponse with
    | some resp =>
      let updatedTransaction := { transaction with payphoneData := some resp }
      let s1 := storeSetTxn s clientTransactionId updatedTransaction
      let s2 := if updatedTransaction.orderId.isNone then
          (PaymentOrderService.createOrderFromTransaction s1 clientTransactionId
            OrderStatus.pending newOrderId).1
        else s1
      (s2, .ok ⟨updatedTransaction, resp⟩)
    | none =>
      match gwResult with
      | .ok respData =>
        let updatedTransaction := { transaction with payphoneData := some respData }
        let s1 := storeSetTxn s clientTransactionId updatedTransaction
        let s2 := if updatedTransaction.orderId.isNone then
            (PaymentOrderService.createOrderFromTransaction s1 clientTransactionId
              OrderStatus.pending newOrderId).1
          else s1
        (s2, .ok ⟨updatedTransaction, respData⟩)
      | .error e =>
        let s1 := storeSetTxn s clientTransactionId
          { transaction with status := PaymentStatus.failed }
        (s1, .error (.gatewayError (errMessage e)))

end PaymentsService

/-- The in-memory exchange-rate cache entry (`CachedRate`). -/
structure CachedRate where
  rate : Rat
  timestamp : Nat
deriving DecidableEq, Repr

/-- The dolarapi response body; `ok` is the HTTP `response.ok` flag. -/
structure DolarApiResponse where
  ok : Bool
  compra : Rat
  venta : Rat
deriving DecidableEq, Repr

/-- `CACHE_DURATION = 60 * 60 * 1000` milliseconds. -/
def CACHE_DURATION : Nat := 60 * 60 * 1000

/-- `FALLBACK_RATE = 1200`. -/
def FALLBACK_RATE : Rat := 1200

/-- JS `a || b` on numbers (0 and NaN are falsy; numbers are modelled as ℚ so
only 0 is falsy). -/
def jsNumOr (a b : Rat) : Rat :=
  if a != 0 then a else b

/-- The try/catch body of `getUsdToArsRate` once the fresh-cache check failed:
on a successful fetch with a positive venta-or-compra rate, cache and return
it; on any failure (thrown fetch, non-ok response, non-positive rate) return
the stale cache if one exists, else cache and return the static fallback. -/
def tryFetchRate (cache : Option CachedRate) (now : Nat)
    (fetchResult : Except String DolarApiResponse) : Rat × Option CachedRate :=
  let failurePath : Rat × Option CachedRate :=
    match cache with
    | some c => (c.rate, some c)
    | none => (FALLBACK_RATE, some ⟨FALLBACK_RATE, now⟩)
  match fetchResult with
  | .error _ => failurePath
  | .ok resp =>
    if !resp.ok then failurePath
    else
      let rate := jsNumOr resp.venta (jsNumOr resp.compra 0)
      if rate > 0 then (rate, some ⟨rate, now⟩)
      else failurePath

/-- `getUsdToArsRate` (currency.helper.ts): return the cached rate while it is
less than one hour old, otherwise fetch (with last-known-good and then static
fallback degradation). Returns the rate and the new cache contents. -/
def getUsdToArsRate (cache : Option CachedRate) (now : Nat)
    (fetchResult : Except String DolarApiResponse) : Rat × Option CachedRate :=
  match cache with
  | some c =>
    if now - c.timestamp < CACHE_DURATION then (c.rate, some c)
    else tryFetchRate (some c) now fetchResult
  | none => tryFetchRate none now fetchResult

/-- `convertUsdToArs` (currency.helper.ts): multiply by the current rate and
round to the nearest integer (ARS has no fractional units at the gateway). -/
def convertUsdToArs (amountUsd : Rat) (cache : Option CachedRate) (now : Nat)
    (fetchResult : Except String DolarApiResponse) : Int × Option CachedRate :=
  let (rate, newCache) := getUsdToArsRate cache now fetchResult
  (round (amountUsd * rate), newCache)

/-- A failed rate fetch as observed by the catch block: the fetch threw, the
HTTP response was not ok, or the reported rate was not positive. -/
def fetchFailed (fetchResult : Except String DolarApiResponse) : Prop :=
  match fetchResult with
  | .error _ => True
  | .ok resp => resp.ok = false ∨ ¬(0 < jsNumOr resp.venta (jsNumOr resp.compra 0))

/-! ### Concrete example data for witnesses and counterexamples -/

/-- An example product priced 100 with no discount. -/
def exProduct : Product := { id := "p1", price := 100, discount := none }

/-- An example cart line: two units of the example product. -/
def exCartItem : CartItem :=
  { userId := "u1", productId := "p1", quantity := 2, product := exProduct }

/-- An example address owned by user u1. -/
def exAddress : Address := { id := "a1", userId := "u1" }

/-- An example pending order of user u1. -/
def exOrder : Order :=
  { id := "o1", userId := "u1", addressId := "a1", total := 100
    status := OrderStatus.pending, items := [], depositImageUrl := none }

/-- An example pending transaction linked to the example order. -/
def exTxnPending : Txn :=
  { id := "tx1", clientTransactionId := "c1", userId := "u1", orderId := some "o1"
    amount := 100, status := PaymentStatus.pending
    paymentProvider := PaymentProvider.PAYPHONE, addressId := some "a1"
    paymentMethodId := none, payphoneData := none }

/-- The example transaction after completion. -/
def exTxnCompleted : Txn := { exTxnPending with status := PaymentStatus.completed }

/-- A store holding the pending example transaction and its order. -/
def exStorePending : Store :=
  { transactions := [exTxnPending], orders := [exOrder], cartItems := []
    addresses := [exAddress], notifications := [] }

/-- A store where the example transaction has completed and its order is
processing. -/
def exStoreCompleted : Store :=
  { transactions := [exTxnCompleted]
    orders := [{ exOrder with status := OrderStatus.processing }]
    cartItems := [], addresses := [exAddress], notifications := [] }

/-- A request body with an address but no order and no provider (PAYPHONE). -/
def exDto : CreatePaymentTransactionDto :=
  { orderId := none, clientTransactionId := "c9", addressId := some "a1"
    paymentMethodId := none, paymentProvider := none, payphoneData := none }

/-- A MERCADOPAGO request body. -/
def exDtoMP : CreatePaymentTransactionDto :=
  { orderId := none, clientTransactionId := "c2", addressId := some "a1"
    paymentMethodId := some "pm1", paymentProvider := some PaymentProvider.MERCADOPAGO
    payphoneData := none }

/-- A store with a non-empty cart and no transactions yet. -/
def exStoreCart : Store :=
  { transactions := [], orders := [], cartItems := [exCartItem]
    addresses := [exAddress], notifications := [] }

/-- A store with one pending order carrying two pending transactions and one
completed one. -/
def exStoreRegen : Store :=
  { transactions := [exTxnPending,
      { exTxnPending with id := "tx2", clientTransactionId := "c2b" },
      { exTxnCompleted with id := "tx3", clientTransactionId := "c3b" }]
    orders := [exOrder], cartItems := [], addresses := [exAddress]
    notifications := [] }

/-! ### Helper lemmas -/

theorem find?_replaceBy_self {α : Type} {p : α → Bool} {l : List α} {t y : α}
    (h : l.find? p = some t) (hy : p y = true) :
    (replaceBy p y l).find? p = some y := by
  induction l with
  | nil => simp at h
  | cons a as ih =>
    by_cases ha : p a = true
    · simp [replaceBy, List.find?_cons_of_pos _ hy, ha]
    · rw [List.find?_cons_of_neg _ ha] at h
      have := ih h
      simp only [replaceBy, List.map_cons, if_neg ha]
      rw [List.find?_cons_of_neg _ ha]
      exact this

theorem mem_replaceBy {α : Type} {p : α → Bool} {l : List α} {y x : α}
    (hx : x ∈ replaceBy p y l) : x = y ∨ x ∈ l := by
  induction l with
  | nil => simp [replaceBy] at hx
  | cons a as ih =>
    simp only [replaceBy, List.map_cons, List.mem_cons] at hx
    rcases hx with hx | hx
    · by_cases ha : p a = true
      · simp [ha] at hx; exact Or.inl hx
      · simp [ha] at hx
        exact Or.inr (by rw [hx]; exact List.mem_cons_self a as)
    · rcases ih hx with h | h
      · exact Or.inl h
      · exact Or.inr (List.mem_cons_of_mem a h)

theorem pred_of_findTxn {s : Store} {ctid : String} {t : Txn}
    (h : findTxn s ctid = some t) : t.clientTransactionId = ctid := by
  have := List.find?_some h
  simpa [txnMatches] using this

theorem pred_of_findOrder {s : Store} {oid : String} {o : Order}
    (h : findOrder s oid = some o) : o.id = oid := by
  have := List.find?_some h
  simpa [orderMatches] using this

theorem mem_of_findTxn {s : Store} {ctid : String} {t : Txn}
    (h : findTxn s ctid = some t) : t ∈ s.transactions :=
  List.mem_of_find?_eq_some h

/-- `OrdersService.updateStatus` touches only orders and notifications. -/
theorem updateStatus_frame (s : Store) (id : String) (st : OrderStatus)
    (u : Option String) :
    (OrdersService.updateStatus s id st u).1.transactions = s.transactions ∧
    (OrdersService.updateStatus s id st u).1.cartItems = s.cartItems ∧
    (OrdersService.updateStatus s id st u).1.addresses = s.addresses := by
  unfold OrdersService.updateStatus
  cases h : s.orders.find? (fun o =>
      o.id == id && (match u with | some v => o.userId == v | none => true)) with
  | none => simp
  | some o =>
    simp only []
    constructor
    · split <;> rfl
    constructor
    · split <;> rfl
    · split <;> rfl

/-- The transaction row as rewritten by a status update that goes through:
new status, and the new gateway blob when supplied, else the retained one. -/
def txnAfterUpdate (t : Txn) (status : PaymentStatus) (d : Option String) : Txn :=
  { t with status := status
           payphoneData := match d with | some x => some x | none => t.payphoneData }

/-- Symbolic evaluation of `updatePaymentStatus(..., completed)` when the
transaction exists, is not yet completed and is linked to an order present in
the store: the transaction row is rewritten, the order is advanced to the
provider-determined status, the status-change e-mail fires iff the order
status actually changes, and the confirmation e-mail always fires. -/
theorem updatePaymentStatus_completed_spec
    (s : Store) (ctid oid : String) (t : Txn) (o : Order) (d : Option String)
    (h1 : findTxn s ctid = some t) (h2 : t.status ≠ PaymentStatus.completed)
    (h3 : t.orderId = some oid) (h4 : findOrder s oid = some o) :
    PaymentOrderService.updatePaymentStatus s ctid PaymentStatus.completed d =
      ({ transactions := replaceBy (txnMatches ctid)
            (txnAfterUpdate t PaymentStatus.completed d) s.transactions
         orders := replaceBy (orderMatches o.id)
            { o with status := PaymentOrderService.determineOrderStatus t.paymentProvider }
            s.orders
         cartItems := s.cartItems
         addresses := s.addresses
         notifications :=
           (if o.status != PaymentOrderService.determineOrderStatus t.paymentProvider then
              s.notifications ++ [Notification.statusEmail o.id
                (PaymentOrderService.determineOrderStatus t.paymentProvider) o.status]
            else s.notifications)
           ++ [Notification.confirmationEmail o.id t.amount] },
       Except.ok (txnAfterUpdate t PaymentStatus.completed d)) := by
  have hoid : o.id = oid := pred_of_findOrder h4
  subst hoid
  have hne : (t.status == PaymentStatus.completed) = false := by
    simp [h2]
  have hfind : s.orders.find? (fun x => x.id == o.id && true) = some o := by
    simpa [findOrder, orderMatches] using h4
  unfold PaymentOrderService.updatePaymentStatus PaymentOrderService.handlePaymentCompleted
    OrdersService.updateStatus
  rw [h1]
  simp only [hne, Bool.false_eq_true, if_false, h3, beq_self_eq_true, if_true]
  simp only [findOrder] at h4
  simp only [findOrder, storeSetTxn, storeSetOrder, txnAfterUpdate]
  simp only [h4, hfind]
  by_cases hb : (o.status != PaymentOrderService.determineOrderStatus t.paymentProvider) = true
  · simp [hb, h3, txnMatches, orderMatches]
  · simp at hb
    simp [hb, h3, txnMatches, orderMatches]

/-- `updatePaymentStatus` is a pure no-op when the requested status equals the
current one. -/
theorem updatePaymentStatus_noop
    (s : Store) (ctid : String) (t : Txn) (st : PaymentStatus) (d : Option String)
    (h1 : findTxn s ctid = some t) (h2 : t.status = st) :
    PaymentOrderService.updatePaymentStatus s ctid st d = (s, Except.ok t) := by
  unfold PaymentOrderService.updatePaymentStatus
  rw [h1]
  simp [h2]

/-- `updatePaymentStatus` with a non-completed target status on a transaction
currently in a different status: the row is rewritten and nothing else runs. -/
theorem updatePaymentStatus_noncompleted_spec
    (s : Store) (ctid : String) (t : Txn) (st : PaymentStatus) (d : Option String)
    (h1 : findTxn s ctid = some t) (h2 : t.status ≠ st)
    (h3 : st ≠ PaymentStatus.completed) :
    PaymentOrderService.updatePaymentStatus s ctid st d =
      (storeSetTxn s ctid (txnAfterUpdate t st d), Except.ok (txnAfterUpdate t st d)) := by
  have hne : (t.status == st) = false := by simp [h2]
  have hne2 : (st == PaymentStatus.completed) = false := by simp [h3]
  unfold PaymentOrderService.updatePaymentStatus
  rw [h1]
  simp [hne, hne2, txnAfterUpdate]

/-- `updatePaymentStatus(..., completed)` on a transaction without a linked
order: the status write is persisted and only then the BadRequest is raised. -/
theorem updatePaymentStatus_completed_noorder_spec
    (s : Store) (ctid : String) (t : Txn) (d : Option String)
    (h1 : findTxn s ctid = some t) (h2 : t.status ≠ PaymentStatus.completed)
    (h3 : t.orderId = none) :
    PaymentOrderService.updatePaymentStatus s ctid PaymentStatus.completed d =
      (storeSetTxn s ctid (txnAfterUpdate t PaymentStatus.completed d),
       Except.error (Err.badRequest
         "La transacción no tiene una orden asociada. Por favor, contacta al soporte.")) := by
  have hne : (t.status == PaymentStatus.completed) = false := by simp [h2]
  unfold PaymentOrderService.updatePaymentStatus PaymentOrderService.handlePaymentCompleted
  rw [h1]
  simp [hne, h3, txnAfterUpdate]

/-- `find?` over an append looks in the left part first. -/
theorem find?_append_right {α : Type} {p : α → Bool} {l1 l2 : List α}
    (h : l1.find? p = none) : (l1 ++ l2).find? p = l2.find? p := by
  induction l1 with
  | nil => simp
  | cons a as ih =>
    by_cases ha : p a = true
    · rw [List.find?_cons_of_pos _ ha] at h; cases h
    · rw [List.find?_cons_of_neg _ ha] at h
      rw [List.cons_append, List.find?_cons_of_neg _ ha]
      exact ih h

/-- The transaction just rewritten by an update is the one found afterwards. -/
theorem findTxn_storeSetTxn {s : Store} {ctid : String} {t y : Txn}
    (h : findTxn s ctid = some t) (hy : y.clientTransactionId = t.clientTransactionId) :
    findTxn (storeSetTxn s ctid y) ctid = some y := by
  have hp : txnMatches ctid y = true := by
    simp [txnMatches, hy, pred_of_findTxn h]
  exact find?_replaceBy_self h hp

/-- `handlePaymentCompleted` touches only orders and notifications. -/
theorem handlePaymentCompleted_frame (s : Store) (t : Txn) :
    (PaymentOrderService.handlePaymentCompleted s t).1.transactions = s.transactions ∧
    (PaymentOrderService.handlePaymentCompleted s t).1.cartItems = s.cartItems ∧
    (PaymentOrderService.handlePaymentCompleted s t).1.addresses = s.addresses := by
  unfold PaymentOrderService.handlePaymentCompleted
  cases t.orderId with
  | none => simp
  | some oid =>
    cases h : findOrder s oid with
    | none => simp [h]
    | some o =>
      have hf := updateStatus_frame s o.id
        (PaymentOrderService.determineOrderStatus t.paymentProvider) none
      simp only [h]
      cases hr : (OrdersService.updateStatus s o.id
          (PaymentOrderService.determineOrderStatus t.paymentProvider) none).2 with
      | error e =>
        simp [hr]
        exact ⟨hf.1, hf.2.1, hf.2.2⟩
      | ok v =>
        simp [hr]
        exact ⟨hf.1, hf.2.1, hf.2.2⟩

/-! ### Claim theorems -/

/-- Claim C7: for every user whose cart has zero line items and a valid owned
address, `createTransactionAndOrder` (the facade delegates it verbatim to
`PaymentTransactionService.createWithOrder`) fails with BadRequest and the
store is returned completely unchanged: neither a PaymentTransaction nor an
Order is created. -/
theorem C7_empty_cart_rejection
    (s : Store) (userId : String) (dto : CreatePaymentTransactionDto)
    (newOrderId newTxnRowId : String) (gw : Except Err GatewayInitResult)
    (aid : String) (a : Address)
    (haddr : optTruthy dto.addressId = some aid)
    (hown : s.addresses.find? (fun x => x.id == aid && x.userId == userId) = some a)
    (hcart : s.cartItems.filter (fun c => c.userId == userId) = []) :
    PaymentTransactionService.createWithOrder s userId dto newOrderId newTxnRowId gw =
      (s, Except.error (Err.badRequest "El carrito está vacío")) := by
  unfold PaymentTransactionService.createWithOrder
  rw [haddr]
  simp [hown, hcart]

/-- Witness for C7 at a concrete store with an owned address and empty cart. -/
theorem C7_witness :
    PaymentTransactionService.createWithOrder exStorePending "u1" exDto "onew" "txnew"
      (Except.error (Err.gatewayError "na")) =
      (exStorePending, Except.error (Err.badRequest "El carrito está vacío")) :=
  C7_empty_cart_rejection exStorePending "u1" exDto "onew" "txnew"
    (Except.error (Err.gatewayError "na")) "a1" exAddress rfl rfl rfl

/-- Claim C10: the Checkout-Preference conversion returns round(amount × rate),
where the rate is the cached one while less than an hour old; otherwise a
freshly fetched positive rate which replaces the cache; on fetch failure the
last-known-good cached rate (even expired); otherwise the static fallback —
and, provided every cached rate is positive (an invariant of the code, since
only positive rates are ever cached), the rate used is always positive. -/
theorem C10_currency_conversion
    (amountUsd : Rat) (cache : Option CachedRate) (now : Nat)
    (fetchResult : Except String DolarApiResponse)
    (hpos : ∀ c, cache = some c → 0 < c.rate) :
    (convertUsdToArs amountUsd cache now fetchResult).1 =
      round (amountUsd * (getUsdToArsRate cache now fetchResult).1) ∧
    0 < (getUsdToArsRate cache now fetchResult).1 ∧
    (∀ c, cache = some c → now - c.timestamp < CACHE_DURATION →
      getUsdToArsRate cache now fetchResult = (c.rate, some c)) ∧
    (∀ resp, (∀ c, cache = some c → ¬(now - c.timestamp < CACHE_DURATION)) →
      fetchResult = Except.ok resp → resp.ok = true →
      0 < jsNumOr resp.venta (jsNumOr resp.compra 0) →
      getUsdToArsRate cache now fetchResult =
        (jsNumOr resp.venta (jsNumOr resp.compra 0),
         some ⟨jsNumOr resp.venta (jsNumOr resp.compra 0), now⟩)) ∧
    (∀ c, cache = some c → ¬(now - c.timestamp < CACHE_DURATION) →
      fetchFailed fetchResult →
      getUsdToArsRate cache now fetchResult = (c.rate, some c)) ∧
    (cache = none → fetchFailed fetchResult →
      getUsdToArsRate cache now fetchResult =
        (FALLBACK_RATE, some ⟨FALLBACK_RATE, now⟩)) := by
  have htry : ∀ (c? : Option CachedRate), (∀ c, c? = some c → 0 < c.rate) →
      0 < (tryFetchRate c? now fetchResult).1 := by
    intro c? hp
    unfold tryFetchRate
    cases fetchResult with
    | error e =>
      cases c? with
      | none => simp [FALLBACK_RATE]
      | some c => simpa using hp c rfl
    | ok resp =>
      by_cases hok : resp.ok
      · simp only [hok, Bool.not_true]
        by_cases hr : 0 < jsNumOr resp.venta (jsNumOr resp.compra 0)
        · simp [hr]
        · simp only [if_neg hr, Bool.false_eq_true, if_false]
          cases c? with
          | none => simp [FALLBACK_RATE]
          | some c => simpa using hp c rfl
      · simp only [Bool.not_eq_true] at hok
        simp only [hok, Bool.not_false, if_true]
        cases c? with
        | none => simp [FALLBACK_RATE]
        | some c => simpa using hp c rfl
  have htryfail : ∀ (c? : Option CachedRate), fetchFailed fetchResult →
      tryFetchRate c? now fetchResult =
        (match c? with
         | some c => (c.rate, some c)
         | none => (FALLBACK_RATE, some ⟨FALLBACK_RATE, now⟩)) := by
    intro c? hf
    unfold tryFetchRate
    cases fetchResult with
    | error e => rfl
    | ok resp =>
      unfold fetchFailed at hf
      rcases hf with hf | hf
      · simp [hf]
      · by_cases hok : resp.ok
        · simp [hok, if_neg hf]
        · simp only [Bool.not_eq_true] at hok
          simp [hok]
  refine ⟨?_, ?_, ?_, ?_, ?_, ?_⟩
  · rcases hgr : getUsdToArsRate cache now fetchResult with ⟨r, nc⟩
    simp [convertUsdToArs, hgr]
  · unfold getUsdToArsRate
    cases cache with
    | none => exact htry none (by intro c hc; cases hc)
    | some c =>
      by_cases hfresh : now - c.timestamp < CACHE_DURATION
      · simpa [hfresh] using hpos c rfl
      · simp only [if_neg hfresh]
        exact htry (some c) hpos
  · intro c hc hfresh
    subst hc
    simp [getUsdToArsRate, hfresh]
  · intro resp hstale hfetch hok hr
    subst hfetch
    unfold getUsdToArsRate
    cases cache with
    | none => simp [tryFetchRate, hok, hr]
    | some c =>
      have := hstale c rfl
      simp only [if_neg this]
      simp [tryFetchRate, hok, hr]
  · intro c hc hfresh hf
    subst hc
    simp only [getUsdToArsRate, if_neg hfresh]
    simpa using htryfail (some c) hf
  · intro hc hf
    subst hc
    simpa [getUsdToArsRate] using htryfail none hf

/-- Witness for C10: a positive cached rate that expired, with the fetch
failing, falls back to the last-known-good rate. -/
theorem C10_witness :
    (convertUsdToArs 100 (some ⟨1000, 0⟩) CACHE_DURATION (Except.error "down")).1 =
      round ((100 : Rat) * (getUsdToArsRate (some ⟨1000, 0⟩) CACHE_DURATION
        (Except.error "down")).1) ∧
    getUsdToArsRate (some ⟨1000, 0⟩) CACHE_DURATION (Except.error "down") =
      (1000, some ⟨1000, 0⟩) := by
  have h := C10_currency_conversion 100 (some ⟨1000, 0⟩) CACHE_DURATION
    (Except.error "down")
    (by intro c hc; cases hc; norm_num)
  refine ⟨h.1, ?_⟩
  exact h.2.2.2.2.1 ⟨1000, 0⟩ rfl (by simp [CACHE_DURATION]) trivial

/-- Claim C2: a same-status call to `updatePaymentStatus` returns the
transaction unchanged, performs no store write and fires no notification (the
returned pair is literally the input store); and completing a transaction
twice in a row fires the notification side effects exactly once — the first
call appends exactly the status-change e-mail (the notification send of §6)
and the order-confirmation e-mail, and the second call is a pure no-op on
transaction, order and notification log alike. -/
theorem C2_same_status_noop :
    (∀ (s : Store) (ctid : String) (t : Txn) (st : PaymentStatus) (d : Option String),
      findTxn s ctid = some t → t.status = st →
      PaymentOrderService.updatePaymentStatus s ctid st d = (s, Except.ok t)) ∧
    (∀ (s : Store) (ctid oid : String) (t : Txn) (o : Order) (d d2 : Option String),
      findTxn s ctid = some t → t.status ≠ PaymentStatus.completed →
      t.orderId = some oid → findOrder s oid = some o →
      o.status ≠ PaymentOrderService.determineOrderStatus t.paymentProvider →
      (PaymentOrderService.updatePaymentStatus s ctid PaymentStatus.completed d).1.notifications =
        s.notifications ++
          [Notification.statusEmail o.id
            (PaymentOrderService.determineOrderStatus t.paymentProvider) o.status,
           Notification.confirmationEmail o.id t.amount] ∧
      PaymentOrderService.updatePaymentStatus
          (PaymentOrderService.updatePaymentStatus s ctid PaymentStatus.completed d).1
          ctid PaymentStatus.completed d2 =
        ((PaymentOrderService.updatePaymentStatus s ctid PaymentStatus.completed d).1,
         Except.ok (txnAfterUpdate t PaymentStatus.completed d))) := by
  refine ⟨updatePaymentStatus_noop, ?_⟩
  intro s ctid oid t o d d2 h1 h2 h3 h4 h5
  have hspec := updatePaymentStatus_completed_spec s ctid oid t o d h1 h2 h3 h4
  have hb : (o.status != PaymentOrderService.determineOrderStatus t.paymentProvider) = true := by
    simpa using h5
  constructor
  · rw [hspec]
    simp [hb]
  · have hfind : findTxn (PaymentOrderService.updatePaymentStatus s ctid
        PaymentStatus.completed d).1 ctid =
        some (txnAfterUpdate t PaymentStatus.completed d) := by
      rw [hspec]
      exact findTxn_storeSetTxn (s := s) h1 rfl
    exact updatePaymentStatus_noop _ ctid _ PaymentStatus.completed d2 hfind rfl

/-- Witness for C2 at the concrete pending store: the same-status call is a
no-op, and completing twice fires each e-mail exactly once. -/
theorem C2_witness :
    PaymentOrderService.updatePaymentStatus exStorePending "c1" PaymentStatus.pending none =
      (exStorePending, Except.ok exTxnPending) ∧
    (PaymentOrderService.updatePaymentStatus exStorePending "c1"
        PaymentStatus.completed none).1.notifications =
      [Notification.statusEmail "o1" OrderStatus.processing OrderStatus.pending,
       Notification.confirmationEmail "o1" 100] := by
  constructor
  · exact C2_same_status_noop.1 exStorePending "c1" exTxnPending PaymentStatus.pending none
      rfl rfl
  · have h := (C2_same_status_noop.2 exStorePending "c1" "o1" exTxnPending exOrder
      none none rfl (by decide) rfl rfl (by decide)).1
    simpa [exStorePending, exOrder, exTxnPending] using h

/-- Claim C3: completing a transaction with a linked order sets the order
status to `determineOrderStatus` of the provider: processing for PAYPHONE
(Redirect-Link) and MERCADOPAGO (Checkout-Preference), paid_pending_review
for CASH_DEPOSIT and for any other provider. -/
theorem C3_provider_order_status_mapping
    (s : Store) (ctid oid : String) (t : Txn) (o : Order) (d : Option String)
    (h1 : findTxn s ctid = some t) (h2 : t.status ≠ PaymentStatus.completed)
    (h3 : t.orderId = some oid) (h4 : findOrder s oid = some o) :
    findOrder (PaymentOrderService.updatePaymentStatus s ctid
        PaymentStatus.completed d).1 oid =
      some { o with status := PaymentOrderService.determineOrderStatus t.paymentProvider } ∧
    PaymentOrderService.determineOrderStatus PaymentProvider.PAYPHONE =
      OrderStatus.processing ∧
    PaymentOrderService.determineOrderStatus PaymentProvider.MERCADOPAGO =
      OrderStatus.processing ∧
    PaymentOrderService.determineOrderStatus PaymentProvider.CASH_DEPOSIT =
      OrderStatus.paid_pending_review ∧
    (∀ p, p ≠ PaymentProvider.PAYPHONE → p ≠ PaymentProvider.MERCADOPAGO →
      PaymentOrderService.determineOrderStatus p = OrderStatus.paid_pending_review) := by
  have hoid : o.id = oid := pred_of_findOrder h4
  refine ⟨?_, rfl, rfl, rfl, ?_⟩
  · rw [updatePaymentStatus_completed_spec s ctid oid t o d h1 h2 h3 h4]
    have hfind : findOrder s oid = some o := h4
    subst hoid
    have hp : orderMatches o.id
        { o with status := PaymentOrderService.determineOrderStatus t.paymentProvider } =
        true := by simp [orderMatches]
    by_cases hb : (o.status != PaymentOrderService.determineOrderStatus t.paymentProvider)
        = true
    · simp only [findOrder, hb, if_true]
      exact find?_replaceBy_self hfind hp
    · simp only [findOrder, hb, if_false]
      exact find?_replaceBy_self hfind hp
  · intro p hp1 hp2
    cases p with
    | PAYPHONE => exact absurd rfl hp1
    | MERCADOPAGO => exact absurd rfl hp2
    | CASH_DEPOSIT => rfl
    | CRYPTO_DEPOSIT => rfl

/-- Witness for C3 at the concrete pending store. -/
theorem C3_witness :
    findOrder (PaymentOrderService.updatePaymentStatus exStorePending "c1"
        PaymentStatus.completed none).1 "o1" =
      some { exOrder with status := OrderStatus.processing } := by
  have h := (C3_provider_order_status_mapping exStorePending "c1" "o1" exTxnPending exOrder
    none rfl (by decide) rfl rfl).1
  simpa [exTxnPending] using h

/-- Claim C9 (implicit): completing a transaction whose `orderId` is null
raises the BadRequest no-order error, but the completed status (and gateway
blob) has already been persisted before the exception, so an identical retry
silently takes the same-status no-op path. -/
theorem C9_nonatomic_completion
    (s : Store) (ctid : String) (t : Txn) (d d2 : Option String)
    (h1 : findTxn s ctid = some t) (h2 : t.status ≠ PaymentStatus.completed)
    (h3 : t.orderId = none) :
    (PaymentOrderService.updatePaymentStatus s ctid PaymentStatus.completed d).2 =
      Except.error (Err.badRequest
        "La transacción no tiene una orden asociada. Por favor, contacta al soporte.") ∧
    findTxn (PaymentOrderService.updatePaymentStatus s ctid
        PaymentStatus.completed d).1 ctid =
      some (txnAfterUpdate t PaymentStatus.completed d) ∧
    PaymentOrderService.updatePaymentStatus
        (PaymentOrderService.updatePaymentStatus s ctid PaymentStatus.completed d).1
        ctid PaymentStatus.completed d2 =
      ((PaymentOrderService.updatePaymentStatus s ctid PaymentStatus.completed d).1,
       Except.ok (txnAfterUpdate t PaymentStatus.completed d)) := by
  have hspec := updatePaymentStatus_completed_noorder_spec s ctid t d h1 h2 h3
  have hfind : findTxn (PaymentOrderService.updatePaymentStatus s ctid
      PaymentStatus.completed d).1 ctid =
      some (txnAfterUpdate t PaymentStatus.completed d) := by
    rw [hspec]
    exact findTxn_storeSetTxn (s := s) h1 rfl
  refine ⟨by rw [hspec], hfind, ?_⟩
  exact updatePaymentStatus_noop _ ctid _ PaymentStatus.completed d2 hfind rfl

/-- Witness for C9 at a concrete store holding an order-less pending
transaction. -/
theorem C9_witness :
    (PaymentOrderService.updatePaymentStatus
        { exStorePending with transactions := [{ exTxnPending with orderId := none }] }
        "c1" PaymentStatus.completed none).2 =
      Except.error (Err.badRequest
        "La transacción no tiene una orden asociada. Por favor, contacta al soporte.") ∧
    findTxn (PaymentOrderService.updatePaymentStatus
        { exStorePending with transactions := [{ exTxnPending with orderId := none }] }
        "c1" PaymentStatus.completed none).1 "c1" =
      some { exTxnPending with orderId := none, status := PaymentStatus.completed } := by
  have h := C9_nonatomic_completion
    { exStorePending with transactions := [{ exTxnPending with orderId := none }] }
    "c1" { exTxnPending with orderId := none } none none rfl (by decide) rfl
  exact ⟨h.1, by simpa [txnAfterUpdate] using h.2.1⟩

/-- `OrdersService.createFromPaymentTransaction` never touches the
transactions table. -/
theorem createFromPaymentTransaction_frame (s : Store) (userId addressId : String)
    (st : OrderStatus) (noid : String) :
    (OrdersService.createFromPaymentTransaction s userId addressId st
      noid).1.transactions = s.transactions := by
  unfold OrdersService.createFromPaymentTransaction
  cases h : s.addresses.find? (fun a => a.id == addressId && a.userId == userId) with
  | none => simp [h]
  | some a =>
    simp only [h]
    by_cases he : (s.cartItems.filter (fun c => c.userId == userId)).isEmpty
    · simp [he]
    · simp [he]

/-- Counterexample to claim C1 as stated: `updatePaymentStatus` guards only
same-status redelivery, so calling it with status=failed on a completed
transaction (possible through the public update-status endpoint, which passes
any status argument straight through) moves the status away from completed. -/
theorem C1_counterexample :
    (findTxn exStoreCompleted "c1").map Txn.status = some PaymentStatus.completed ∧
    (findTxn (PaymentOrderService.updatePaymentStatus exStoreCompleted "c1"
        PaymentStatus.failed none).1 "c1").map Txn.status =
      some PaymentStatus.failed := by
  constructor
  · rfl
  · rw [updatePaymentStatus_noncompleted_spec exStoreCompleted "c1" exTxnCompleted
      PaymentStatus.failed none rfl (by decide) (by decide)]
    rfl

/-- Claim C1 amended: completed is sticky under every path except a direct
`updatePaymentStatus` call with a different status argument. Concretely, for a
completed transaction: (a) a completed-status redelivery is a pure no-op;
(b) the verify-pull path short-circuits and leaves the store untouched
whatever the gateway reports; (c) the webhook push path leaves the store
untouched whatever the gateway status is; (d) regeneration preserves the
completed row unchanged; (e) deletion of pending payments preserves it
(assuming row ids are unique); and (f) `createOrderFromTransaction` can still
attach an `orderId` to an order-less transaction but never changes its status
or amount. -/
theorem C1_completed_sticky_amended :
    (∀ (s : Store) (ctid : String) (t : Txn) (d : Option String),
      findTxn s ctid = some t → t.status = PaymentStatus.completed →
      PaymentOrderService.updatePaymentStatus s ctid PaymentStatus.completed d =
        (s, Except.ok t)) ∧
    (∀ (s : Store) (gw : Except Err MPPayment) (ctid : String) (t : Txn),
      findTxn s ctid = some t → t.status = PaymentStatus.completed →
      (PaymentWebhookService.verifyAndUpdateMercadoPagoPayment s gw ctid).1 = s) ∧
    (∀ (s : Store) (p : MPPayment) (ctid : String) (t : Txn),
      optTruthy p.external_reference = some ctid →
      findTxn s ctid = some t → t.status = PaymentStatus.completed →
      (PaymentWebhookService.handleMercadoPagoWebhook s (Except.ok p)).1 = s) ∧
    (∀ (s : Store) (orderId userId : String) (prov : PaymentProvider)
       (pmid pdata : Option String) (nctid nrid : String)
       (gw : Except Err GatewayInitResult) (t : Txn),
      t ∈ s.transactions → t.status = PaymentStatus.completed →
      t ∈ (PaymentTransactionService.regenerateForOrder s orderId userId prov
        pmid pdata nctid nrid gw).1.transactions) ∧
    (∀ (s : Store) (userId tid : String) (t : Txn),
      t ∈ s.transactions → t.status = PaymentStatus.completed →
      (∀ x ∈ s.transactions, x.id = t.id → x = t) →
      t ∈ (PaymentTransactionService.deleteUserPendingPayment s userId tid).1.transactions) ∧
    (∀ (s : Store) (ctid : String) (st : OrderStatus) (noid : String) (t : Txn),
      findTxn s ctid = some t →
      ∃ t2, findTxn (PaymentOrderService.createOrderFromTransaction s ctid st
          noid).1 ctid = some t2 ∧
        t2.status = t.status ∧ t2.amount = t.amount ∧
        (t2 = t ∨ (t.orderId = none ∧ ∃ oid2, t2 = { t with orderId := some oid2 }))) := by
  refine ⟨?_, ?_, ?_, ?_, ?_, ?_⟩
  · intro s ctid t d h1 h2
    exact updatePaymentStatus_noop s ctid t PaymentStatus.completed d h1 h2
  · intro s gw ctid t h1 h2
    cases gw with
    | error e => rfl
    | ok p =>
      unfold PaymentWebhookService.verifyAndUpdateMercadoPagoPayment
      rw [h1]
      simp [h2]
  · intro s p ctid t href h1 h2
    unfold PaymentWebhookService.handleMercadoPagoWebhook
    dsimp only
    rw [href]
    dsimp only
    rw [h1]
    dsimp only
    by_cases hap : p.status == some "approved"
    · simp only [hap, if_true]
      rw [updatePaymentStatus_noop s ctid t PaymentStatus.completed none h1 h2]
    · simp [hap]
  · intro s orderId userId prov pmid pdata nctid nrid gw t ht hst
    unfold PaymentTransactionService.regenerateForOrder
    cases hf : s.orders.find? (fun o =>
        o.id == orderId && o.userId == userId && o.status == OrderStatus.pending) with
    | none => simpa using ht
    | some order =>
      have hkeep : t ∈ s.transactions.filter (fun x =>
          !(x.orderId == some orderId && x.userId == userId
            && x.status == PaymentStatus.pending)) := by
        rw [List.mem_filter]
        refine ⟨ht, ?_⟩
        simp [hst]
      by_cases hmp : prov == PaymentProvider.MERCADOPAGO
      · cases gw with
        | error e => simp only [hmp, if_true]; exact List.mem_append_left _ hkeep
        | ok g => simp only [hmp, if_true]; exact List.mem_append_left _ hkeep
      · simp only [hmp, if_false]
        exact List.mem_append_left _ hkeep
  · intro s userId tid t ht hst huniq
    unfold PaymentTransactionService.deleteUserPendingPayment
    cases hf : s.transactions.find? (fun x =>
        x.id == tid && x.userId == userId && x.status == PaymentStatus.pending) with
    | none => simpa using ht
    | some x0 =>
      have hx0 := List.find?_some hf
      have hx0mem := List.mem_of_find?_eq_some hf
      have hx0id : x0.id = tid := by
        simp only [Bool.and_eq_true, beq_iff_eq] at hx0
        exact hx0.1.1
      have hx0st : x0.status = PaymentStatus.pending := by
        simp only [Bool.and_eq_true, beq_iff_eq] at hx0
        exact hx0.2
      have htid : t.id ≠ tid := by
        intro hEq
        have : x0 = t := huniq x0 hx0mem (by rw [hx0id, hEq])
        rw [this, hst] at hx0st
        cases hx0st
      simp only []
      rw [List.mem_filter]
      exact ⟨ht, by simp [htid]⟩
  · intro s ctid st noid t h1
    unfold PaymentOrderService.createOrderFromTransaction
    rw [h1]
    cases haddr : optTruthy t.addressId with
    | none =>
      simp only [haddr]
      exact ⟨t, h1, rfl, rfl, Or.inl rfl⟩
    | some aid =>
      cases hord : t.orderId with
      | some oid =>
        simp only [haddr, hord]
        exact ⟨t, h1, rfl, rfl, Or.inl rfl⟩
      | none =>
        simp only [haddr, hord]
        cases hc : OrdersService.createFromPaymentTransaction s t.userId aid st noid with
        | mk s1 r =>
          have hs1 : s1.transactions = s.transactions := by
            have hfr := createFromPaymentTransaction_frame s t.userId aid st noid
            rw [hc] at hfr
            exact hfr
          have h1s1 : findTxn s1 ctid = some t := by
            unfold findTxn
            rw [hs1]
            exact h1
          cases r with
          | error e =>
            simp only [hc]
            exact ⟨t, h1s1, rfl, rfl, Or.inl rfl⟩
          | ok order =>
            simp only [hc]
            exact ⟨{ t with orderId := some order.id },
              findTxn_storeSetTxn (s := s1) h1s1 rfl, rfl, rfl,
              Or.inr ⟨by simp [hord], order.id, rfl⟩⟩

/-- Witness for C1: concrete completed transaction is untouched by a
completed-status redelivery and by the verify-pull path. -/
theorem C1_witness :
    PaymentOrderService.updatePaymentStatus exStoreCompleted "c1"
        PaymentStatus.completed none = (exStoreCompleted, Except.ok exTxnCompleted) ∧
    (PaymentWebhookService.verifyAndUpdateMercadoPagoPayment exStoreCompleted
        (Except.ok ⟨some "rejected", some "c1"⟩) "c1").1 = exStoreCompleted := by
  constructor
  · exact C1_completed_sticky_amended.1 exStoreCompleted "c1" exTxnCompleted none rfl rfl
  · exact C1_completed_sticky_amended.2.1 exStoreCompleted
      (Except.ok ⟨some "rejected", some "c1"⟩) "c1" exTxnCompleted rfl rfl

/-- The transactions table after any `updatePaymentStatus` call: either
untouched, or with exactly the found row rewritten to the target status. -/
theorem updatePaymentStatus_transactions_char
    (s : Store) (c : String) (st : PaymentStatus) (d : Option String) :
    (PaymentOrderService.updatePaymentStatus s c st d).1.transactions = s.transactions ∨
    ∃ t, findTxn s c = some t ∧
      (PaymentOrderService.updatePaymentStatus s c st d).1.transactions =
        replaceBy (txnMatches c) (txnAfterUpdate t st d) s.transactions := by
  unfold PaymentOrderService.updatePaymentStatus
  cases h1 : findTxn s c with
  | none => left; rfl
  | some t =>
    by_cases hsame : (t.status == st) = true
    · left; simp [hsame]
    · right
      refine ⟨t, rfl, ?_⟩
      by_cases hc : (st == PaymentStatus.completed) = true
      · simp only [hsame, Bool.false_eq_true, if_false, hc, if_true]
        split
        · dsimp only
          rw [(handlePaymentCompleted_frame _ _).1]
          simp [storeSetTxn, txnAfterUpdate]
        · dsimp only
          rw [(handlePaymentCompleted_frame _ _).1]
          simp [storeSetTxn, txnAfterUpdate]
      · simp only [hsame, Bool.false_eq_true, if_false, hc]
        simp [storeSetTxn, txnAfterUpdate]

/-- Any transaction present after `updatePaymentStatus` either carries the
written status or was already in the store. -/
theorem updatePaymentStatus_txn_mem
    (s : Store) (c : String) (st : PaymentStatus) (d : Option String) (x : Txn)
    (hx : x ∈ (PaymentOrderService.updatePaymentStatus s c st d).1.transactions) :
    x.status = st ∨ x ∈ s.transactions := by
  rcases updatePaymentStatus_transactions_char s c st d with h | ⟨t, ht, h⟩
  · right; rw [h] at hx; exact hx
  · rw [h] at hx
    rcases mem_replaceBy hx with hx | hx
    · left; rw [hx]; rfl
    · right; exact hx

/-- Claim C5: the webhook push path aborts silently with no state change when
the gateway payload has no external reference or no local transaction matches;
it invokes `updatePaymentStatus(..., completed)` exactly when the gateway says
approved; every other gateway status leaves the store untouched; and the push
path never marks any transaction failed. -/
theorem C5_webhook_push_path :
    (∀ (s : Store) (p : MPPayment),
      optTruthy p.external_reference = none →
      PaymentWebhookService.handleMercadoPagoWebhook s (Except.ok p) =
        (s, Except.ok ())) ∧
    (∀ (s : Store) (p : MPPayment) (ref : String),
      optTruthy p.external_reference = some ref → findTxn s ref = none →
      PaymentWebhookService.handleMercadoPagoWebhook s (Except.ok p) =
        (s, Except.ok ())) ∧
    (∀ (s : Store) (p : MPPayment) (ref : String) (t : Txn),
      optTruthy p.external_reference = some ref → findTxn s ref = some t →
      p.status = some "approved" →
      (PaymentWebhookService.handleMercadoPagoWebhook s (Except.ok p)).1 =
        (PaymentOrderService.updatePaymentStatus s ref PaymentStatus.completed none).1) ∧
    (∀ (s : Store) (p : MPPayment) (ref : String) (t : Txn),
      optTruthy p.external_reference = some ref → findTxn s ref = some t →
      p.status ≠ some "approved" →
      PaymentWebhookService.handleMercadoPagoWebhook s (Except.ok p) =
        (s, Except.ok ())) ∧
    (∀ (s : Store) (gw : Except Err MPPayment) (x : Txn),
      x ∈ (PaymentWebhookService.handleMercadoPagoWebhook s gw).1.transactions →
      x.status = PaymentStatus.failed → x ∈ s.transactions) := by
  refine ⟨?_, ?_, ?_, ?_, ?_⟩
  · intro s p href
    unfold PaymentWebhookService.handleMercadoPagoWebhook
    dsimp only
    rw [href]
  · intro s p ref href hfind
    unfold PaymentWebhookService.handleMercadoPagoWebhook
    dsimp only
    rw [href]
    dsimp only
    rw [hfind]
  · intro s p ref t href hfind hap
    unfold PaymentWebhookService.handleMercadoPagoWebhook
    dsimp only
    rw [href]
    dsimp only
    rw [hfind]
    simp [hap]
  · intro s p ref t href hfind hap
    unfold PaymentWebhookService.handleMercadoPagoWebhook
    dsimp only
    rw [href]
    dsimp only
    rw [hfind]
    have : (p.status == some "approved") = false := by simpa using hap
    simp [this]
  · intro s gw x hx hfail
    cases gw with
    | error e => exact hx
    | ok p =>
      revert hx
      unfold PaymentWebhookService.handleMercadoPagoWebhook
      dsimp only
      cases href : optTruthy p.external_reference with
      | none => intro hx; exact hx
      | some ref =>
        dsimp only
        cases hfind : findTxn s ref with
        | none => intro hx; exact hx
        | some t =>
          dsimp only
          by_cases hap : (p.status == some "approved") = true
          · simp only [hap, if_true]
            cases hu : PaymentOrderService.updatePaymentStatus s ref
                PaymentStatus.completed none with
            | mk s1 r =>
              intro hx
              have hx1 : x ∈ s1.transactions := by simpa using hx
              have := updatePaymentStatus_txn_mem s ref PaymentStatus.completed none x
                (by rw [hu]; exact hx1)
              rcases this with h | h
              · rw [hfail] at h; cases h
              · exact h
          · simp only [hap, Bool.false_eq_true, if_false]
            intro hx
            exact hx

/-- Witness for C5: the push path on a pending transaction with gateway status
approved completes it; a rejected push changes nothing. -/
theorem C5_witness :
    (PaymentWebhookService.handleMercadoPagoWebhook exStorePending
        (Except.ok ⟨some "approved", some "c1"⟩)).1 =
      (PaymentOrderService.updatePaymentStatus exStorePending "c1"
        PaymentStatus.completed none).1 ∧
    PaymentWebhookService.handleMercadoPagoWebhook exStorePending
        (Except.ok ⟨some "rejected", some "c1"⟩) =
      (exStorePending, Except.ok ()) := by
  constructor
  · exact C5_webhook_push_path.2.2.1 exStorePending ⟨some "approved", some "c1"⟩ "c1"
      exTxnPending rfl rfl rfl
  · exact C5_webhook_push_path.2.2.2.1 exStorePending ⟨some "rejected", some "c1"⟩ "c1"
      exTxnPending rfl rfl (by decide)

/-- Claim C4: the verify-pull mapping. (i) no local transaction: not_found,
no update; (ii) already completed locally: already_completed, no store
mutation whatever the gateway says; (iii) gateway approved: invokes
`updatePaymentStatus(..., completed)` and reports approved/updated (stated
under the hypotheses that make that call succeed: a linked order exists);
(iv) pending/in_process: no local change; (v) rejected/cancelled/refunded:
invokes `updatePaymentStatus(..., failed)`, reports the gateway status with
updated:true and leaves every order untouched; (vi) anything else: no change,
updated:false. -/
theorem C4_verify_pull_mapping :
    (∀ (s : Store) (p : MPPayment) (ctid : String),
      findTxn s ctid = none →
      PaymentWebhookService.verifyAndUpdateMercadoPagoPayment s (Except.ok p) ctid =
        (s, ⟨"not_found", false, some "Transacción no encontrada"⟩)) ∧
    (∀ (s : Store) (p : MPPayment) (ctid : String) (t : Txn),
      findTxn s ctid = some t → t.status = PaymentStatus.completed →
      PaymentWebhookService.verifyAndUpdateMercadoPagoPayment s (Except.ok p) ctid =
        (s, ⟨"already_completed", false, some "El pago ya fue procesado anteriormente"⟩)) ∧
    (∀ (s : Store) (p : MPPayment) (ctid oid : String) (t : Txn) (o : Order),
      findTxn s ctid = some t → t.status ≠ PaymentStatus.completed →
      p.status = some "approved" → t.orderId = some oid → findOrder s oid = some o →
      PaymentWebhookService.verifyAndUpdateMercadoPagoPayment s (Except.ok p) ctid =
        ((PaymentOrderService.updatePaymentStatus s ctid PaymentStatus.completed none).1,
         ⟨"approved", true, some "Pago confirmado exitosamente"⟩)) ∧
    (∀ (s : Store) (p : MPPayment) (ctid : String) (t : Txn),
      findTxn s ctid = some t → t.status ≠ PaymentStatus.completed →
      (p.status = some "pending" ∨ p.status = some "in_process") →
      PaymentWebhookService.verifyAndUpdateMercadoPagoPayment s (Except.ok p) ctid =
        (s, ⟨"pending", false, some "El pago está pendiente de confirmación"⟩)) ∧
    (∀ (s : Store) (p : MPPayment) (ctid : String) (t : Txn) (st : String),
      findTxn s ctid = some t → t.status ≠ PaymentStatus.completed →
      p.status = some st → (st = "rejected" ∨ st = "cancelled" ∨ st = "refunded") →
      PaymentWebhookService.verifyAndUpdateMercadoPagoPayment s (Except.ok p) ctid =
        ((PaymentOrderService.updatePaymentStatus s ctid PaymentStatus.failed none).1,
         ⟨st, true, some "El pago fue rechazado o cancelado"⟩) ∧
      (PaymentOrderService.updatePaymentStatus s ctid PaymentStatus.failed none).1.orders =
        s.orders) ∧
    (∀ (s : Store) (p : MPPayment) (ctid : String) (t : Txn),
      findTxn s ctid = some t → t.status ≠ PaymentStatus.completed →
      p.status ≠ some "approved" → p.status ≠ some "pending" →
      p.status ≠ some "in_process" → p.status ≠ some "rejected" →
      p.status ≠ some "cancelled" → p.status ≠ some "refunded" →
      (PaymentWebhookService.verifyAndUpdateMercadoPagoPayment s (Except.ok p) ctid).1 = s ∧
      (PaymentWebhookService.verifyAndUpdateMercadoPagoPayment s
        (Except.ok p) ctid).2.updated = false) := by
  refine ⟨?_, ?_, ?_, ?_, ?_, ?_⟩
  · intro s p ctid hfind
    unfold PaymentWebhookService.verifyAndUpdateMercadoPagoPayment
    dsimp only
    rw [hfind]
  · intro s p ctid t hfind hst
    unfold PaymentWebhookService.verifyAndUpdateMercadoPagoPayment
    dsimp only
    rw [hfind]
    simp [hst]
  · intro s p ctid oid t o hfind hst hap hord horder
    have hspec := updatePaymentStatus_completed_spec s ctid oid t o none hfind hst hord horder
    have hne : (t.status == PaymentStatus.completed) = false := by simpa using hst
    have hapb : (p.status == some "approved") = true := by simp [hap]
    unfold PaymentWebhookService.verifyAndUpdateMercadoPagoPayment
    dsimp only
    rw [hfind]
    simp only [hne, Bool.false_eq_true, if_false, hapb, if_true]
    rw [hspec]
  · intro s p ctid t hfind hst hp
    unfold PaymentWebhookService.verifyAndUpdateMercadoPagoPayment
    dsimp only
    rw [hfind]
    have hne : (t.status == PaymentStatus.completed) = false := by simpa using hst
    have hap : (p.status == some "approved") = false := by
      rcases hp with hp | hp <;> simp [hp]
    have hpend : (p.status == some "pending" || p.status == some "in_process") = true := by
      rcases hp with hp | hp <;> simp [hp]
    simp [hne, hap, hpend]
  · intro s p ctid t st hfind hst hp hin
    have hne : (t.status == PaymentStatus.completed) = false := by simpa using hst
    have hap : (p.status == some "approved") = false := by
      rcases hin with rfl | rfl | rfl <;> simp [hp]
    have hpend : (p.status == some "pending" || p.status == some "in_process") = false := by
      rcases hin with rfl | rfl | rfl <;> simp [hp]
    have hrej : (p.status == some "rejected" || p.status == some "cancelled"
        || p.status == some "refunded") = true := by
      rcases hin with rfl | rfl | rfl <;> simp [hp]
    have hor : orElseStr p.status "rejected" = st := by
      rw [hp]
      rcases hin with rfl | rfl | rfl <;> rfl
    by_cases ht : t.status = PaymentStatus.failed
    · have hnoop := updatePaymentStatus_noop s ctid t PaymentStatus.failed none hfind ht
      constructor
      · unfold PaymentWebhookService.verifyAndUpdateMercadoPagoPayment
        dsimp only
        rw [hfind]
        simp only [hne, Bool.false_eq_true, if_false, hap, hpend, hrej, if_true]
        rw [hnoop]
        dsimp only
        rw [hor]
      · rw [hnoop]
    · have hspec := updatePaymentStatus_noncompleted_spec s ctid t PaymentStatus.failed
        none hfind ht (by decide)
      constructor
      · unfold PaymentWebhookService.verifyAndUpdateMercadoPagoPayment
        dsimp only
        rw [hfind]
        simp only [hne, Bool.false_eq_true, if_false, hap, hpend, hrej, if_true]
        rw [hspec]
        dsimp only
        rw [hor]
      · rw [hspec]
        rfl
  · intro s p ctid t hfind hst h1 h2 h3 h4 h5 h6
    have hne : (t.status == PaymentStatus.completed) = false := by simpa using hst
    have hap : (p.status == some "approved") = false := by simpa using h1
    have hp2 : (p.status == some "pending") = false := by simpa using h2
    have hp3 : (p.status == some "in_process") = false := by simpa using h3
    have hp4 : (p.status == some "rejected") = false := by simpa using h4
    have hp5 : (p.status == some "cancelled") = false := by simpa using h5
    have hp6 : (p.status == some "refunded") = false := by simpa using h6
    unfold PaymentWebhookService.verifyAndUpdateMercadoPagoPayment
    dsimp only
    rw [hfind]
    simp [hne, hap, hp2, hp3, hp4, hp5, hp6]

/-- Witness for C4: a pending transaction verified while the gateway reports
approved gets completed; an already-completed one short-circuits. -/
theorem C4_witness :
    PaymentWebhookService.verifyAndUpdateMercadoPagoPayment exStorePending
        (Except.ok ⟨some "approved", some "c1"⟩) "c1" =
      ((PaymentOrderService.updatePaymentStatus exStorePending "c1"
          PaymentStatus.completed none).1,
       ⟨"approved", true, some "Pago confirmado exitosamente"⟩) ∧
    PaymentWebhookService.verifyAndUpdateMercadoPagoPayment exStoreCompleted
        (Except.ok ⟨some "approved", some "c1"⟩) "c1" =
      (exStoreCompleted,
       ⟨"already_completed", false, some "El pago ya fue procesado anteriormente"⟩) := by
  constructor
  · exact C4_verify_pull_mapping.2.2.1 exStorePending ⟨some "approved", some "c1"⟩
      "c1" "o1" exTxnPending exOrder rfl (by decide) rfl rfl rfl
  · exact C4_verify_pull_mapping.2.1 exStoreCompleted ⟨some "approved", some "c1"⟩
      "c1" exTxnCompleted rfl rfl

/-- After a successful `regenerateForOrder`, the transactions table is the old
one minus the pending rows of that order/user, plus the fresh pending row —
independently of the gateway branch. -/
theorem regenerateForOrder_transactions
    (s : Store) (orderId userId : String) (prov : PaymentProvider)
    (pmid pdata : Option String) (nctid nrid : String)
    (gw : Except Err GatewayInitResult) (order : Order)
    (hf : s.orders.find? (fun o => o.id == orderId && o.userId == userId
      && o.status == OrderStatus.pending) = some order) :
    (PaymentTransactionService.regenerateForOrder s orderId userId prov pmid pdata
      nctid nrid gw).1.transactions =
      s.transactions.filter (fun t => !(t.orderId == some orderId && t.userId == userId
        && t.status == PaymentStatus.pending)) ++
      [regeneratedTxn order orderId userId prov pmid pdata nctid nrid] := by
  unfold PaymentTransactionService.regenerateForOrder
  dsimp only
  rw [hf]
  by_cases hmp : (prov == PaymentProvider.MERCADOPAGO) = true
  · cases gw with
    | error e => simp [hmp]
    | ok g => simp [hmp]
  · simp only [Bool.not_eq_true] at hmp
    simp [hmp]

/-- Claim C6: `regenerateForOrder` raises NotFound with no state change unless
the order exists, belongs to the caller and is pending; on success it deletes
every pending transaction of that order (all of which belong to that user, the
stated well-formedness hypothesis), creates exactly one new pending
transaction with the newly generated id and the order total as amount, and
leaves non-pending transactions of the order untouched — afterwards the order
has exactly one pending transaction and it is the new one. -/
theorem C6_retry_cleanup :
    (∀ (s : Store) (orderId userId : String) (prov : PaymentProvider)
       (pmid pdata : Option String) (nctid nrid : String)
       (gw : Except Err GatewayInitResult),
      s.orders.find? (fun o => o.id == orderId && o.userId == userId
        && o.status == OrderStatus.pending) = none →
      PaymentTransactionService.regenerateForOrder s orderId userId prov pmid pdata
        nctid nrid gw =
        (s, Except.error (Err.notFound "Orden no encontrada o no está en estado pendiente"))) ∧
    (∀ (s : Store) (orderId userId : String) (prov : PaymentProvider)
       (pmid pdata : Option String) (nctid nrid : String)
       (gw : Except Err GatewayInitResult) (order : Order),
      s.orders.find? (fun o => o.id == orderId && o.userId == userId
        && o.status == OrderStatus.pending) = some order →
      (∀ x ∈ s.transactions, x.orderId = some orderId → x.userId = userId) →
      ((PaymentTransactionService.regenerateForOrder s orderId userId prov pmid pdata
          nctid nrid gw).1.transactions.filter (fun x =>
            x.orderId == some orderId && x.status == PaymentStatus.pending)) =
        [regeneratedTxn order orderId userId prov pmid pdata nctid nrid] ∧
      (∀ x ∈ s.transactions, x.orderId = some orderId →
        x.status ≠ PaymentStatus.pending →
        x ∈ (PaymentTransactionService.regenerateForOrder s orderId userId prov pmid
          pdata nctid nrid gw).1.transactions) ∧
      (regeneratedTxn order orderId userId prov pmid pdata nctid nrid).status =
        PaymentStatus.pending ∧
      (regeneratedTxn order orderId userId prov pmid pdata nctid
        nrid).clientTransactionId = nctid ∧
      (regeneratedTxn order orderId userId prov pmid pdata nctid nrid).amount =
        order.total ∧
      (regeneratedTxn order orderId userId prov pmid pdata nctid nrid).orderId =
        some orderId) := by
  constructor
  · intro s orderId userId prov pmid pdata nctid nrid gw hf
    unfold PaymentTransactionService.regenerateForOrder
    dsimp only
    rw [hf]
  · intro s orderId userId prov pmid pdata nctid nrid gw order hf hWF
    have htx := regenerateForOrder_transactions s orderId userId prov pmid pdata
      nctid nrid gw order hf
    refine ⟨?_, ?_, rfl, rfl, rfl, rfl⟩
    · rw [htx, List.filter_append]
      have hleft : (s.transactions.filter (fun t =>
          !(t.orderId == some orderId && t.userId == userId
            && t.status == PaymentStatus.pending))).filter (fun x =>
          x.orderId == some orderId && x.status == PaymentStatus.pending) = [] := by
        rw [List.filter_eq_nil_iff]
        intro x hx
        rw [List.mem_filter] at hx
        rcases hx with ⟨hmem, hkeep⟩
        intro hP
        simp only [Bool.and_eq_true, beq_iff_eq] at hP
        have huser : x.userId = userId := hWF x hmem hP.1
        simp [hP.1, hP.2, huser] at hkeep
      have hright : List.filter (fun x =>
          x.orderId == some orderId && x.status == PaymentStatus.pending)
          [regeneratedTxn order orderId userId prov pmid pdata nctid nrid] =
          [regeneratedTxn order orderId userId prov pmid pdata nctid nrid] := by
        simp [regeneratedTxn]
      rw [hleft, hright, List.nil_append]
    · intro x hmem hord hst
      rw [htx]
      apply List.mem_append_left
      rw [List.mem_filter]
      refine ⟨hmem, ?_⟩
      simp [hst]

/-- Witness for C6 at a store with two pending transactions and one completed
one on the same pending order. -/
theorem C6_witness :
    ((PaymentTransactionService.regenerateForOrder exStoreRegen "o1" "u1"
        PaymentProvider.PAYPHONE none none "cNew" "txNew"
        (Except.error (Err.gatewayError "na"))).1.transactions.filter (fun x =>
          x.orderId == some "o1" && x.status == PaymentStatus.pending)) =
      [regeneratedTxn exOrder "o1" "u1" PaymentProvider.PAYPHONE none none
        "cNew" "txNew"] ∧
    { exTxnCompleted with id := "tx3", clientTransactionId := "c3b" } ∈
      (PaymentTransactionService.regenerateForOrder exStoreRegen "o1" "u1"
        PaymentProvider.PAYPHONE none none "cNew" "txNew"
        (Except.error (Err.gatewayError "na"))).1.transactions := by
  have h := C6_retry_cleanup.2 exStoreRegen "o1" "u1" PaymentProvider.PAYPHONE
    none none "cNew" "txNew" (Except.error (Err.gatewayError "na")) exOrder
    rfl (by decide)
  exact ⟨h.1, h.2.1 { exTxnCompleted with id := "tx3", clientTransactionId := "c3b" }
    (by decide) rfl (by decide)⟩

/-- Counterexample to claim C8 as stated: on the phone-charge fallback path a
gateway failure does NOT leave the transaction in its prior stored state — the
catch block first writes status=failed and only then rethrows. -/
theorem C8_counterexample :
    (findTxn exStorePending "c1").map Txn.status = some PaymentStatus.pending ∧
    (PaymentsService.processPhonePayment exStorePending "u1" "c1" none
        (Except.error (Err.gatewayError "network error")) "onew").2 =
      Except.error (Err.gatewayError "network error") ∧
    (findTxn (PaymentsService.processPhonePayment exStorePending "u1" "c1" none
        (Except.error (Err.gatewayError "network error")) "onew").1 "c1").map
        Txn.status = some PaymentStatus.failed := by
  refine ⟨rfl, rfl, rfl⟩

/-- Claim C8 amended: gateway failures propagate to the caller as typed errors
with no internal retry; for the provider-initiation calls of the create and
regenerate operations the already-created transaction row keeps its freshly
written pending state (and the rest of the store is exactly the state after
the two creations — in particular the cart is not cleared); but on the
phone-charge fallback path a gateway failure first marks the transaction
failed and only then propagates the error. -/
theorem C8_gateway_failure_amended :
    (∀ (s : Store) (userId : String) (dto : CreatePaymentTransactionDto)
       (noid ntid : String) (e : Err) (aid : String) (a : Address),
      dto.paymentProvider = some PaymentProvider.MERCADOPAGO →
      optTruthy dto.addressId = some aid →
      s.addresses.find? (fun x => x.id == aid && x.userId == userId) = some a →
      (s.cartItems.filter (fun c => c.userId == userId)).isEmpty = false →
      PaymentTransactionService.createWithOrder s userId dto noid ntid
          (Except.error e) =
        ({ s with
            orders := s.orders ++ [createWithOrderOrder userId aid
              (cartOrderItems (s.cartItems.filter (fun c => c.userId == userId))) noid]
            transactions := s.transactions ++ [createWithOrderTxn userId dto
              (orderItemsTotal (cartOrderItems
                (s.cartItems.filter (fun c => c.userId == userId)))) noid ntid] },
         Except.error e) ∧
      (createWithOrderTxn userId dto (orderItemsTotal (cartOrderItems
        (s.cartItems.filter (fun c => c.userId == userId)))) noid ntid).status =
        PaymentStatus.pending) ∧
    (∀ (s : Store) (orderId userId : String) (pmid pdata : Option String)
       (nctid nrid : String) (e : Err) (order : Order),
      s.orders.find? (fun o => o.id == orderId && o.userId == userId
        && o.status == OrderStatus.pending) = some order →
      PaymentTransactionService.regenerateForOrder s orderId userId
          PaymentProvider.MERCADOPAGO pmid pdata nctid nrid (Except.error e) =
        ({ s with transactions := s.transactions.filter (fun t =>
            !(t.orderId == some orderId && t.userId == userId
              && t.status == PaymentStatus.pending)) ++
            [regeneratedTxn order orderId userId PaymentProvider.MERCADOPAGO pmid
              pdata nctid nrid] },
         Except.error e) ∧
      (regeneratedTxn order orderId userId PaymentProvider.MERCADOPAGO pmid pdata
        nctid nrid).status = PaymentStatus.pending) ∧
    (∀ (s : Store) (userId ctid : String) (t : Txn) (e : Err) (noid : String),
      s.transactions.find? (fun x =>
        x.clientTransactionId == ctid && x.userId == userId) = some t →
      PaymentsService.processPhonePayment s userId ctid none (Except.error e) noid =
        (storeSetTxn s ctid { t with status := PaymentStatus.failed },
         Except.error (Err.gatewayError (errMessage e)))) := by
  refine ⟨?_, ?_, ?_⟩
  · intro s userId dto noid ntid e aid a hprov haddr hown hcart
    constructor
    · unfold PaymentTransactionService.createWithOrder
      dsimp only
      rw [haddr]
      dsimp only
      rw [hown]
      simp only [hcart, Bool.false_eq_true, if_false]
      rw [hprov]
      rfl
    · rfl
  · intro s orderId userId pmid pdata nctid nrid e order hf
    constructor
    · unfold PaymentTransactionService.regenerateForOrder
      dsimp only
      rw [hf]
      rfl
    · rfl
  · intro s userId ctid t e noid hfind
    unfold PaymentsService.processPhonePayment
    dsimp only
    rw [hfind]

/-- Witness for C8: the phone fallback marks the concrete pending transaction
failed and rethrows; the Checkout-Preference create propagates the gateway
error while both created rows persist. -/
theorem C8_witness :
    PaymentsService.processPhonePayment exStorePending "u1" "c1" none
        (Except.error (Err.gatewayError "down")) "onew" =
      (storeSetTxn exStorePending "c1" { exTxnPending with status := PaymentStatus.failed },
       Except.error (Err.gatewayError "down")) ∧
    (PaymentTransactionService.createWithOrder exStoreCart "u1" exDtoMP "onew" "txnew"
        (Except.error (Err.gatewayError "down"))).2 =
      Except.error (Err.gatewayError "down") := by
  constructor
  · exact C8_gateway_failure_amended.2.2 exStorePending "u1" "c1" exTxnPending
      (Err.gatewayError "down") "onew" rfl
  · have h := C8_gateway_failure_amended.1 exStoreCart "u1" exDtoMP "onew" "txnew"
      (Err.gatewayError "down") "a1" exAddress rfl rfl rfl rfl
    rw [h.1]
